import Mathlib

/-!
Shallow embedding of `src/bot.py` (Telegram captcha bot "Damoclès").

Modelling conventions:
* Timestamps and durations are integer seconds (`Int`); `now` is passed
  explicitly where the source calls `datetime.now()`.
* The Python `attempts` dict (keyed by `str(user_id)`) is an association
  list `List (Int × AttemptRecord)` with dict-like update semantics.
* Outbound Telegram API calls are recorded as a list of `Effect`s, in the
  order the source issues them.  A call wrapped in `try:` in the source may
  fail; when a failure changes control flow (the remainder of the same
  `try:` block is skipped) the handler takes an explicit success flag.
  Calls the source does not guard are modelled as always succeeding.
* `datetime.strptime` is abstracted: a blacklist `expires` field is either
  the literal `PERMANENT`, absent, a parseable date (carried as its
  timestamp), or unparseable (`invalid`, e.g. the concrete string "SOON",
  which contains no space and no 'T' and fails `strptime('%Y-%m-%d')`).
* Python's regex `t\.me/[^\s]+` and substring / `str.replace` operations
  are implemented directly over `List Char` (ASCII inputs; `Char.toLower`
  matches `str.lower` there).
-/

namespace Damocles

/-- Telegram chat-member statuses (`telegram.constants.ChatMemberStatus`). -/
inductive MemberStatus where
  | owner
  | administrator
  | member
  | restricted
  | left
  | banned
deriving DecidableEq, Repr

/-- One outstanding captcha record, as stored in `attempts.json`:
`{'tries': 0, 'message_id': ..., 'join_time': ...}`. -/
structure AttemptRecord where
  tries : Nat
  messageId : Int
  joinTime : Int
deriving DecidableEq, Repr

/-- The attempts store: a Python dict keyed by user id. -/
abbrev Attempts := List (Int × AttemptRecord)

/-- Dict lookup (`attempts[str(user_id)]` / `user_key in attempts`). -/
def lookupA (k : Int) : Attempts → Option AttemptRecord
  | [] => none
  | (k', v) :: rest => if k' = k then some v else lookupA k rest

/-- Dict deletion (`del attempts[user_key]`). -/
def eraseA (k : Int) (m : Attempts) : Attempts :=
  m.filter (fun p => p.1 ≠ k)

/-- Dict assignment (`attempts[str(user_id)] = record`). -/
def setA (k : Int) (v : AttemptRecord) (m : Attempts) : Attempts :=
  eraseA k m ++ [(k, v)]

/-- Bot configuration (`config.json`), the fields `bot.py` reads. -/
structure Config where
  image_path : String
  welcome_message : String
  button_options : List String
  best_answer : Option String
  fun_message : Option String
  spam_patterns : List String
deriving DecidableEq, Repr

/-- An inline keyboard button: label plus
`callback_data=f"captcha_\x7buser_id\x7d_\x7bopt\x7d"`. -/
structure Button where
  label : String
  callback_data : String
deriving DecidableEq, Repr

def mkButton (userId : Int) (opt : String) : Button :=
  ⟨opt, "captcha_" ++ toString userId ++ "_" ++ opt⟩

/-- Slice chunking `options[i:i+c]`, as in `for i in range(0, num_options, c)`.
(The source only calls this with `c = 2` or `c = 3`.) -/
def chunksOf (c : Nat) : List α → List (List α)
  | [] => []
  | x :: xs => (x :: xs.take (c - 1)) :: chunksOf c (xs.drop (c - 1))
termination_by l => l.length
decreasing_by
  simp only [List.length_cons, List.length_drop]
  omega

/-- The adaptive keyboard layout of `new_member_handler` (lines 273-294):
`n ≤ 3` → one row; `4 ≤ n ≤ 6` → chunks of `3 if n > 4 else 2`;
`n > 6` → chunks of 3. -/
def buildKeyboard (userId : Int) (options : List String) : List (List Button) :=
  let n := options.length
  if n ≤ 3 then
    [options.map (mkButton userId)]
  else if n ≤ 6 then
    let cols := if n > 4 then 3 else 2
    (chunksOf cols options).map (fun row => row.map (mkButton userId))
  else
    (chunksOf 3 options).map (fun row => row.map (mkButton userId))

/-- Telegram-side actions the bot issues, in source order. -/
inductive Effect where
  | restrictMember (chatId userId : Int) (perms : List (String × Bool))
  | banMember (chatId userId : Int) (untilSecsFromNow : Option Int)
  | sendMessage (chatId : Int) (text : String)
  | sendPhoto (chatId : Int) (caption : String) (keyboard : List (List Button))
  | deleteMessage (chatId messageId : Int)
  | answerCallback (text : String)
  | scheduleTimeout (delaySecs chatId userId : Int)
  | cancelTimeout (userId : Int)
  | scheduleDeleteLater (chatId messageId delaySecs : Int)
deriving DecidableEq, Repr

def isBanE : Effect → Bool
  | .banMember _ _ _ => true
  | _ => false

def isRestrictE : Effect → Bool
  | .restrictMember _ _ _ => true
  | _ => false

def isDeleteMessageE : Effect → Bool
  | .deleteMessage _ _ => true
  | _ => false

def isScheduleTimeoutE : Effect → Bool
  | .scheduleTimeout _ _ _ => true
  | _ => false

/-- The dict `permissions={'can_send_messages': False}` (restriction at join). -/
def mutePerms : List (String × Bool) := [("can_send_messages", false)]

/-- The full-permissions dict passed by `captcha_callback` on acceptance. -/
def fullPerms : List (String × Bool) :=
  [("can_send_messages", true), ("can_send_media_messages", true),
   ("can_send_polls", true), ("can_send_other_messages", true),
   ("can_add_web_page_previews", true), ("can_invite_users", true),
   ("can_pin_messages", true)]

/-! ### Blacklist (`load_blacklist`, lines 52-91) -/

/-- Abstraction of one row's `expires` field after `.strip().upper()`:
`missing` (column absent, `row.get` defaults to `'PERMANENT'`),
the literal `PERMANENT`, a string one of the three `strptime` formats
parses (carried as its timestamp), or an unparseable string. -/
inductive ExpiresField where
  | missing
  | permanentStr
  | date (t : Int)
  | invalid
deriving DecidableEq, Repr

/-- One CSV row of `blacklist.csv`; `userIdField = none` models a row whose
`user_id` is absent or fails `int(...)` (the `except` skips the row). -/
structure BlacklistRow where
  userIdField : Option Int
  expires : ExpiresField
deriving DecidableEq, Repr

/-- The per-row body of the `load_blacklist` loop: which user id (if any)
this row adds to the blacklist set, given the current time. -/
def rowEval (now : Int) (r : BlacklistRow) : Option Int :=
  match r.userIdField with
  | none => none
  | some uid =>
    match r.expires with
    | .missing => some uid
    | .permanentStr => some uid
    | .date t => if t > now then some uid else none
    | .invalid => some uid

/-- Python `set.add`: append if absent. -/
def addSet (s : List Int) (v : Int) : List Int :=
  if s.contains v then s else s ++ [v]

/-- Function `load_blacklist()`: fold the rows into the blacklist set. -/
def load_blacklist (now : Int) (rows : List BlacklistRow) : List Int :=
  rows.foldl
    (fun bl r =>
      match rowEval now r with
      | some uid => addSet bl uid
      | none => bl)
    []

/-! ### Join handler (`new_member_handler`, lines 191-329) -/

/-- The parts of a `chat_member` update the handler reads. -/
structure JoinUpdate where
  oldStatus : MemberStatus
  newStatus : MemberStatus
  /-- Value of `now - update.chat_member.date`, in seconds. -/
  eventAgeSecs : Int
  chatId : Int
  userId : Int
  username : Option String
  firstName : String
deriving DecidableEq, Repr

/-- Expression `f"@\x7buser.username\x7d" if user.username else user.first_name`. -/
def displayName (username : Option String) (firstName : String) : String :=
  match username with
  | some u => "@" ++ u
  | none => firstName

/-- Environment of one `new_member_handler` run: current time, blacklist
file contents, CAS verdict, config, and the outcome of the two guarded
outbound calls (flood-notice send, captcha-photo send). -/
structure JoinEnv where
  now : Int
  blacklistRows : List BlacklistRow
  casBanned : Bool
  config : Config
  noticeSendOk : Bool
  noticeMessageId : Int
  sendPhotoOk : Bool
  photoMessageId : Int
deriving DecidableEq, Repr

def floodNoticeText (u : JoinUpdate) : String :=
  "⏳ Trop de demandes simultanées. " ++ displayName u.username u.firstName
    ++ ", réessayez dans 1 minute."

/-- Handler `new_member_handler`: returns the updated attempts store and the
outbound actions, in source order.  Durations: 365 d = 31536000 s,
24 h = 86400 s, 1 min = 60 s; the timeout job fires after 120 s.
(The `asyncio.sleep` throttle between captchas changes no state that the
claims mention and is not recorded as an effect.) -/
def new_member_handler (u : JoinUpdate) (env : JoinEnv) (attempts : Attempts) :
    Attempts × List Effect :=
  if ¬ (u.newStatus = .member ∨ u.newStatus = .restricted) then
    (attempts, [])
  else if u.oldStatus ≠ .left then
    (attempts, [])
  else if u.eventAgeSecs > 120 then
    (attempts, [])
  else if (load_blacklist env.now env.blacklistRows).contains u.userId then
    (attempts, [.banMember u.chatId u.userId (some 31536000)])
  else if env.casBanned then
    (attempts, [.banMember u.chatId u.userId (some 31536000)])
  else if attempts.length ≥ 20 then
    -- send / sleep(5) / delete share one try: a failed send skips the delete
    (attempts,
      [.sendMessage u.chatId (floodNoticeText u)]
        ++ (if env.noticeSendOk then [.deleteMessage u.chatId env.noticeMessageId] else [])
        ++ [.banMember u.chatId u.userId (some 60)])
  else
    let kb := buildKeyboard u.userId env.config.button_options
    let fx := [Effect.restrictMember u.chatId u.userId mutePerms,
               Effect.sendPhoto u.chatId env.config.welcome_message kb]
    if ¬ env.sendPhotoOk then
      (attempts, fx ++ [.banMember u.chatId u.userId (some 86400)])
    else
      (setA u.userId ⟨0, env.photoMessageId, env.now⟩ attempts,
        fx ++ [.scheduleTimeout 120 u.chatId u.userId])

/-! ### Captcha answer handler (`captcha_callback`, lines 332-398) -/

/-- The parts of a `callback_query` update the handler reads; `targetUserId`
and `answer` are the second and third pieces of
`query.data.split('_', 2)` for data of the form
`captcha_\x7buid\x7d_\x7banswer\x7d`. -/
structure CallbackUpdate where
  fromUserId : Int
  chatId : Int
  targetUserId : Int
  answer : String
  fromUsername : Option String
  fromFirstName : String
deriving DecidableEq, Repr

/-- Python `str.replace`: replace every non-overlapping occurrence of a
non-empty `needle`, left to right. -/
def replaceAll (needle repl : List Char) : List Char → List Char
  | [] => []
  | c :: cs =>
    if needle ≠ [] ∧ needle.isPrefixOf (c :: cs) then
      repl ++ replaceAll needle repl ((c :: cs).drop needle.length)
    else
      c :: replaceAll needle repl cs
termination_by s => s.length
decreasing_by
  · rename_i h
    simp only [List.length_drop]
    have : needle.length ≠ 0 := by
      simpa [List.length_eq_zero] using h.1
    simp only [List.length_cons]
    omega
  · simp only [List.length_cons]
    omega

/-- Expression `config['fun_message'].replace('\x7busername\x7d', username).replace('\x7buser\x7d', username)`. -/
def substUser (funMessage username : String) : String :=
  String.mk (replaceAll "\x7buser\x7d".toList username.toList
    (replaceAll "\x7busername\x7d".toList username.toList funMessage.toList))

/-- Handler `captcha_callback`: returns the updated attempts store and the outbound
actions.  `funMessageId` is the platform-assigned id of the fun message,
read only when that message is sent. -/
def captcha_callback (q : CallbackUpdate) (cfg : Config) (funMessageId : Int)
    (attempts : Attempts) : Attempts × List Effect :=
  let fx0 := [Effect.answerCallback "⏳ Vérification en cours..."]
  if q.fromUserId ≠ q.targetUserId then
    (attempts, fx0)
  else
    match lookupA q.targetUserId attempts with
    | none => (attempts, fx0)
    | some a =>
      -- all answers are treated as valid: unmute, delete captcha message
      let fx1 := fx0 ++ [Effect.restrictMember q.chatId q.targetUserId fullPerms,
                         Effect.deleteMessage q.chatId a.messageId]
      let funFx :=
        match cfg.best_answer, cfg.fun_message with
        | some best, some funMsg =>
          if q.answer = best then
            [Effect.sendMessage q.chatId
               (substUser funMsg (displayName q.fromUsername q.fromFirstName)),
             Effect.scheduleDeleteLater q.chatId funMessageId 172800]
          else []
        | _, _ => []
      (eraseA q.targetUserId attempts,
        fx1 ++ funFx ++ [Effect.cancelTimeout q.targetUserId])

/-! ### Expiry action (`timeout_kick`, lines 401-425) -/

/-- Job `timeout_kick`: if a record still exists for the user, delete the
captcha message (best-effort), ban 24 h, and delete the record; otherwise
do nothing. -/
def timeout_kick (chatId userId : Int) (attempts : Attempts) :
    Attempts × List Effect :=
  match lookupA userId attempts with
  | none => (attempts, [])
  | some a =>
    (eraseA userId attempts,
      [Effect.deleteMessage chatId a.messageId,
       Effect.banMember chatId userId (some 86400)])

/-! ### First-message spam filter (`check_first_message`, lines 147-188) -/

/-- Python `\s` over the inputs in scope: ASCII whitespace. -/
def isSpaceCh (c : Char) : Bool :=
  c = ' ' || c = '\t' || c = '\n' || c = '\r' || c = '\x0b' || c = '\x0c'

def tMeChars : List Char := "t.me/".toList

/-- Model of `re.findall(r't\.me/[^\s]+', message_lower)`: non-overlapping matches,
left to right; each match is the literal `t.me/` followed by a maximal
non-empty run of non-whitespace characters. -/
def findTgLinks : List Char → List (List Char)
  | [] => []
  | c :: cs =>
    if tMeChars.isPrefixOf (c :: cs) then
      let rest0 := (c :: cs).drop 5
      let run := rest0.takeWhile (fun d => ¬ isSpaceCh d)
      if run = [] then
        findTgLinks cs
      else
        (tMeChars ++ run) :: findTgLinks (rest0.dropWhile (fun d => ¬ isSpaceCh d))
    else
      findTgLinks cs
termination_by s => s.length
decreasing_by
  · simp only [List.length_cons]
    omega
  · have hd :=
      (List.dropWhile_sublist (l := (c :: cs).drop 5)
        (p := fun d => ¬ isSpaceCh d)).length_le
    simp only [List.length_drop, List.length_cons] at hd ⊢
    omega
  · simp only [List.length_cons]
    omega

/-- Python `needle in hay` for strings (substring test). -/
def containsSub (needle : List Char) : List Char → Bool
  | [] => needle.isPrefixOf []
  | c :: cs => needle.isPrefixOf (c :: cs) || containsSub needle cs

/-- Handler `check_first_message`: given the sender, the text message, the spam
patterns from config, and the posted-users list, return the updated
posted-users list and the outbound actions.  `deleteOk` is the outcome of
the guarded `update.message.delete()`; the ban shares its `try:` block, so
a failed delete skips the ban. -/
def check_first_message (userId chatId messageId : Int) (text : String)
    (spamPatterns : List String) (postedUsers : List Int) (deleteOk : Bool) :
    List Int × List Effect :=
  if postedUsers.contains userId then
    (postedUsers, [])
  else
    let messageLower := text.toList.map Char.toLower
    let banFx := [Effect.deleteMessage chatId messageId]
      ++ (if deleteOk then [Effect.banMember chatId userId (some 86400)] else [])
    if (findTgLinks messageLower).length ≥ 2 then
      (postedUsers, banFx)
    else
      match spamPatterns.find? (fun p => containsSub (p.toList.map Char.toLower) messageLower) with
      | some _ => (postedUsers, banFx)
      | none => (postedUsers ++ [userId], [])

/-! ### Helper lemmas -/

theorem lookupA_eraseA (k : Int) (m : Attempts) : lookupA k (eraseA k m) = none := by
  induction m with
  | nil => rfl
  | cons p rest ih =>
    by_cases h : p.1 = k
    · simpa [eraseA, h] using ih
    · simpa [eraseA, lookupA, h] using ih

theorem chunksOf_cons (c : Nat) (x : α) (xs : List α) :
    chunksOf c (x :: xs) = (x :: xs.take (c - 1)) :: chunksOf c (xs.drop (c - 1)) := by
  rw [chunksOf]

theorem chunksOf_flatten (c : Nat) (l : List α) : (chunksOf c l).flatten = l := by
  induction l using chunksOf.induct c with
  | case1 => simp [chunksOf]
  | case2 x xs ih => rw [chunksOf]; simp [ih]

theorem chunksOf_singleton (c : Nat) (l : List α) (h1 : l ≠ []) (h2 : l.length ≤ c) :
    chunksOf c l = [l] := by
  match l with
  | x :: xs =>
    rw [chunksOf_cons]
    simp only [List.length_cons] at h2
    have ht : xs.take (c - 1) = xs := List.take_of_length_le (by omega)
    have hd : xs.drop (c - 1) = [] := List.drop_eq_nil_of_le (by omega)
    rw [ht, hd]
    simp [chunksOf]

theorem chunksOf_mem_length (c : Nat) (hc : 1 ≤ c) (l : List α) :
    ∀ r ∈ chunksOf c l, 1 ≤ r.length ∧ r.length ≤ c := by
  induction l using chunksOf.induct c with
  | case1 => simp [chunksOf]
  | case2 x xs ih =>
    rw [chunksOf_cons]
    intro r hr
    rcases List.mem_cons.mp hr with h | h
    · subst h
      constructor
      · simp
      · simp only [List.length_cons, List.length_take]
        omega
    · exact ih r h

theorem chunksOf_ne_nil (c : Nat) (l : List α) (h : l ≠ []) : chunksOf c l ≠ [] := by
  match l with
  | x :: xs => rw [chunksOf_cons]; simp

theorem chunksOf3_getD (l : List α) :
    ∀ i, i + 1 < (chunksOf 3 l).length → ((chunksOf 3 l).getD i []).length = 3 := by
  induction l using chunksOf.induct 3 with
  | case1 => simp [chunksOf]
  | case2 x xs ih =>
    rw [chunksOf_cons]
    intro i hi
    match i with
    | 0 =>
      simp only [List.length_cons] at hi ⊢
      have hne : chunksOf 3 (xs.drop 2) ≠ [] := by
        intro h
        rw [h] at hi
        simp at hi
      have hxs : xs.drop 2 ≠ [] := by
        intro h
        rw [h] at hne
        exact hne (by simp [chunksOf])
      have hlen : 2 ≤ xs.length := by
        by_contra h
        exact hxs (List.drop_eq_nil_of_le (by omega))
      simp only [List.getD_cons_zero, List.length_cons, List.length_take]
      omega
    | j + 1 =>
      simp only [List.length_cons, Nat.add_lt_add_iff_right] at hi
      simpa using ih j hi

/-- Unfold one step of the blacklist fold. -/
theorem contains_addSet (s : List Int) (v uid : Int) :
    (addSet s v).contains uid = (s.contains uid || decide (uid = v)) := by
  unfold addSet
  by_cases h : s.contains v = true
  · rw [if_pos h]
    by_cases he : uid = v
    · subst he
      simp_all
    · simp [he]
  · rw [if_neg h]
    simp

theorem load_blacklist_foldl (now : Int) (rows : List BlacklistRow) :
    ∀ acc : List Int, ∀ uid : Int,
      ((rows.foldl
        (fun bl r =>
          match rowEval now r with
          | some u => addSet bl u
          | none => bl) acc).contains uid) = true ↔
      (acc.contains uid = true ∨ ∃ r ∈ rows, rowEval now r = some uid) := by
  induction rows with
  | nil => simp
  | cons r rest ih =>
    intro acc uid
    simp only [List.foldl_cons, List.mem_cons]
    rcases hr : rowEval now r with _ | v
    · rw [ih]
      constructor
      · rintro (h | ⟨s, hs, he⟩)
        · exact Or.inl h
        · exact Or.inr ⟨s, Or.inr hs, he⟩
      · rintro (h | ⟨s, hs | hs, he⟩)
        · exact Or.inl h
        · subst hs
          rw [hr] at he
          cases he
        · exact Or.inr ⟨s, hs, he⟩
    · rw [ih, contains_addSet]
      constructor
      · rintro (h | ⟨s, hs, he⟩)
        · rcases Bool.or_eq_true_iff.mp h with h' | h'
          · exact Or.inl h'
          · refine Or.inr ⟨r, Or.inl rfl, ?_⟩
            rw [hr, show uid = v from of_decide_eq_true h']
        · exact Or.inr ⟨s, Or.inr hs, he⟩
      · rintro (h | ⟨s, hs | hs, he⟩)
        · exact Or.inl (Bool.or_eq_true_iff.mpr (Or.inl h))
        · subst hs
          rw [hr] at he
          cases he
          exact Or.inl (Bool.or_eq_true_iff.mpr (Or.inr (by simp)))
        · exact Or.inr ⟨s, hs, he⟩

theorem load_blacklist_contains (now : Int) (rows : List BlacklistRow) (uid : Int) :
    (load_blacklist now rows).contains uid = true ↔
      ∃ r ∈ rows, rowEval now r = some uid := by
  unfold load_blacklist
  rw [load_blacklist_foldl]
  simp

/-- Per-row characterisation of `rowEval`. -/
theorem rowEval_eq_some (now : Int) (r : BlacklistRow) (uid : Int) :
    rowEval now r = some uid ↔
      r.userIdField = some uid ∧
        (r.expires = .missing ∨ r.expires = .permanentStr ∨ r.expires = .invalid ∨
          ∃ t, r.expires = .date t ∧ t > now) := by
  rcases r with ⟨uf, ex⟩
  rcases uf with _ | v
  · simp [rowEval]
  · rcases ex with _ | _ | t | _
    · simp [rowEval]
    · simp [rowEval]
    · by_cases ht : t > now
      · simp [rowEval, ht]
      · simp [rowEval, ht]
    · simp [rowEval]

/-! ### Claim theorems -/

/-- C3: firing the expiry action (`timeout_kick`) for a user with no
`ChallengeAttempt` record is a no-op — attempts store unchanged, no ban and
no message deletion — and firing it twice has the same effect as firing it
once: the second firing always leaves the store unchanged and performs no
action. -/
theorem timeout_kick_noop_idempotent (chatId userId : Int) (a : Attempts) :
    (lookupA userId a = none →
      timeout_kick chatId userId a = (a, [])) ∧
    timeout_kick chatId userId (timeout_kick chatId userId a).1
      = ((timeout_kick chatId userId a).1, []) := by
  constructor
  · intro h
    simp [timeout_kick, h]
  · rcases hl : lookupA userId a with _ | r
    · simp [timeout_kick, hl]
    · simp [timeout_kick, hl, lookupA_eraseA]

/-- Witness for C3 at a concrete store with no record for user 1. -/
theorem timeout_kick_noop_idempotent_witness :
    lookupA 1 [((2 : Int), ⟨0, 77, 0⟩)] = none ∧
      timeout_kick 9 1 [((2 : Int), ⟨0, 77, 0⟩)] = ([((2 : Int), ⟨0, 77, 0⟩)], []) :=
  ⟨by decide, (timeout_kick_noop_idempotent 9 1 [((2 : Int), ⟨0, 77, 0⟩)]).1 (by decide)⟩

/-- C9: a button interaction from a user other than the target, or for a
target with no `ChallengeAttempt` record, is ignored: the attempts store is
unchanged, and no permission change, no ban and no message deletion is
issued. -/
theorem captcha_ignore_frame (q : CallbackUpdate) (cfg : Config) (funMessageId : Int)
    (attempts : Attempts)
    (h : q.fromUserId ≠ q.targetUserId ∨ lookupA q.targetUserId attempts = none) :
    (captcha_callback q cfg funMessageId attempts).1 = attempts ∧
    (captcha_callback q cfg funMessageId attempts).2.all
      (fun e => !(isRestrictE e) && !(isBanE e) && !(isDeleteMessageE e)) = true := by
  by_cases he : q.fromUserId = q.targetUserId
  · have hn : lookupA q.targetUserId attempts = none := by tauto
    simp [captcha_callback, he, hn, isRestrictE, isBanE, isDeleteMessageE]
  · simp [captcha_callback, he, isRestrictE, isBanE, isDeleteMessageE]

/-- Witness for C9: responder 2 presses user 1's button. -/
theorem captcha_ignore_frame_witness :
    ((2 : Int) ≠ (1 : Int) ∨
        lookupA 1 [((1 : Int), ⟨0, 77, 0⟩)] = none) ∧
      (captcha_callback ⟨2, 9, 1, "x", none, "n"⟩ ⟨"i", "w", ["a"], none, none, []⟩ 0
          [((1 : Int), ⟨0, 77, 0⟩)]).1 = [((1 : Int), ⟨0, 77, 0⟩)] :=
  ⟨Or.inl (by decide),
    (captcha_ignore_frame ⟨2, 9, 1, "x", none, "n"⟩ ⟨"i", "w", ["a"], none, none, []⟩ 0
      [((1 : Int), ⟨0, 77, 0⟩)] (Or.inl (by decide))).1⟩

/-- C10: the join handler acts only on transitions old = `left`,
new ∈ \x7b`member`, `restricted`\x7d; on any other transition it returns at
once with the attempts store unchanged and no outbound action. -/
theorem join_status_frame (u : JoinUpdate) (env : JoinEnv) (attempts : Attempts)
    (h : ¬ ((u.newStatus = .member ∨ u.newStatus = .restricted) ∧
            u.oldStatus = .left)) :
    new_member_handler u env attempts = (attempts, []) := by
  unfold new_member_handler
  by_cases hn : u.newStatus = .member ∨ u.newStatus = .restricted
  · have ho : u.oldStatus ≠ .left := by tauto
    simp [hn, ho]
  · simp [hn]

/-- Witness for C10: a promotion (member → administrator) is ignored. -/
theorem join_status_frame_witness :
    (¬ (((MemberStatus.administrator = .member ∨ MemberStatus.administrator = .restricted)) ∧
        MemberStatus.member = .left)) ∧
      new_member_handler ⟨.member, .administrator, 0, 9, 1, none, "n"⟩
        ⟨0, [], false, ⟨"i", "w", ["a"], none, none, []⟩, true, 0, true, 77⟩
        [((5 : Int), ⟨0, 77, 0⟩)]
        = ([((5 : Int), ⟨0, 77, 0⟩)], []) :=
  ⟨by decide,
    join_status_frame ⟨.member, .administrator, 0, 9, 1, none, "n"⟩
      ⟨0, [], false, ⟨"i", "w", ["a"], none, none, []⟩, true, 0, true, 77⟩
      [((5 : Int), ⟨0, 77, 0⟩)] (by decide)⟩

/-- C1: under the accept-all policy, a button interaction whose responder
equals the target and for whose target a `ChallengeAttempt` record exists is
accepted whatever the submitted answer: the user's full posting permissions
are restored, the record is deleted from the attempts store, the pending
expiry action is cancelled, and no ban is issued. -/
theorem captcha_accept_all (q : CallbackUpdate) (cfg : Config) (funMessageId : Int)
    (attempts : Attempts) (a : AttemptRecord)
    (hsame : q.fromUserId = q.targetUserId)
    (hrec : lookupA q.targetUserId attempts = some a) :
    (captcha_callback q cfg funMessageId attempts).1 = eraseA q.targetUserId attempts ∧
    lookupA q.targetUserId (captcha_callback q cfg funMessageId attempts).1 = none ∧
    Effect.restrictMember q.chatId q.targetUserId fullPerms
      ∈ (captcha_callback q cfg funMessageId attempts).2 ∧
    Effect.cancelTimeout q.targetUserId ∈ (captcha_callback q cfg funMessageId attempts).2 ∧
    (captcha_callback q cfg funMessageId attempts).2.all (fun e => !(isBanE e)) = true := by
  have hout : captcha_callback q cfg funMessageId attempts
      = (eraseA q.targetUserId attempts,
          [Effect.answerCallback "⏳ Vérification en cours...",
           Effect.restrictMember q.chatId q.targetUserId fullPerms,
           Effect.deleteMessage q.chatId a.messageId]
            ++ (match cfg.best_answer, cfg.fun_message with
                | some best, some funMsg =>
                  if q.answer = best then
                    [Effect.sendMessage q.chatId
                       (substUser funMsg (displayName q.fromUsername q.fromFirstName)),
                     Effect.scheduleDeleteLater q.chatId funMessageId 172800]
                  else []
                | _, _ => [])
            ++ [Effect.cancelTimeout q.targetUserId]) := by
    simp [captcha_callback, hsame, hrec]
  rw [hout, lookupA_eraseA]
  refine ⟨rfl, rfl, by simp, by simp, ?_⟩
  rcases cfg.best_answer with _ | best <;> rcases cfg.fun_message with _ | funMsg <;>
    simp [isBanE]
  by_cases hb : q.answer = best <;> simp [hb, isBanE]

/-- Witness for C1 at a concrete interaction with an existing record. -/
theorem captcha_accept_all_witness :
    lookupA 1 [((1 : Int), ⟨0, 77, 0⟩)] = some ⟨0, 77, 0⟩ ∧
      (captcha_callback ⟨1, 9, 1, "whatever", none, "n"⟩ ⟨"i", "w", ["a"], none, none, []⟩ 0
          [((1 : Int), ⟨0, 77, 0⟩)]).1 = eraseA 1 [((1 : Int), ⟨0, 77, 0⟩)] :=
  ⟨by decide,
    (captcha_accept_all ⟨1, 9, 1, "whatever", none, "n"⟩ ⟨"i", "w", ["a"], none, none, []⟩ 0
      [((1 : Int), ⟨0, 77, 0⟩)] ⟨0, 77, 0⟩ rfl (by decide)).1⟩

/-- The blacklisting criterion in the words of the spec: an entry for the
user exists "with no expiry or an expiry strictly in the future"
(an unparseable expiry satisfies neither disjunct). -/
def specBlacklisted (now : Int) (rows : List BlacklistRow) (uid : Int) : Prop :=
  ∃ r ∈ rows, r.userIdField = some uid ∧
    (r.expires = .missing ∨ r.expires = .permanentStr ∨
      ∃ t, r.expires = .date t ∧ t > now)

instance (now : Int) (rows : List BlacklistRow) (uid : Int) :
    Decidable (specBlacklisted now rows uid) := by
  unfold specBlacklisted
  have : ∀ e : ExpiresField, Decidable (∃ t, e = .date t ∧ t > now) := by
    intro e
    rcases e with _ | _ | t | _
    · exact isFalse (by simp)
    · exact isFalse (by simp)
    · by_cases ht : t > now
      · exact isTrue ⟨t, rfl, ht⟩
      · exact isFalse (by simpa using ht)
    · exact isFalse (by simp)
  exact List.decidableBEx _ rows

/-- C2 counterexample: a row whose `expires` field is unparseable (e.g. the
string "SOON") is added to the blacklist by `load_blacklist` although it has
neither "no expiry" nor a future expiry, so the spec's iff fails. -/
theorem blacklist_invalid_expiry_cex :
    (load_blacklist 0 [⟨some 1, .invalid⟩]).contains 1 = true ∧
      ¬ specBlacklisted 0 [⟨some 1, .invalid⟩] 1 := by
  constructor
  · decide
  · decide

/-- C2 amended: a user id is in the computed blacklist iff some entry for it
has no expiry, a future expiry, or an unparseable expiry (treated as
permanent); in particular a parseable past-or-present expiry is never
honored. -/
theorem blacklist_membership (now : Int) (rows : List BlacklistRow) (uid : Int) :
    (load_blacklist now rows).contains uid = true ↔
      ∃ r ∈ rows, r.userIdField = some uid ∧
        (r.expires = .missing ∨ r.expires = .permanentStr ∨ r.expires = .invalid ∨
          ∃ t, r.expires = .date t ∧ t > now) := by
  rw [load_blacklist_contains]
  constructor
  · rintro ⟨r, hr, he⟩
    exact ⟨r, hr, (rowEval_eq_some now r uid).mp he⟩
  · rintro ⟨r, hr, he⟩
    exact ⟨r, hr, (rowEval_eq_some now r uid).mpr he⟩

/-- Witness for C2 (amended): a future-dated entry is honored. -/
theorem blacklist_membership_witness :
    (load_blacklist 0 [⟨some 5, .date 10⟩]).contains 5 = true :=
  (blacklist_membership 0 [⟨some 5, .date 10⟩] 5).mpr
    ⟨⟨some 5, .date 10⟩, by decide, rfl, Or.inr (Or.inr (Or.inr ⟨10, rfl, by decide⟩))⟩

/-- C4: a join that reaches the flood check while at least 20 records are
outstanding leaves the attempts store unchanged (no record is created) and
bans the joining user for 1 minute (60 s), whether or not the transient
notice could be sent. -/
theorem flood_ceiling_ban (u : JoinUpdate) (env : JoinEnv) (attempts : Attempts)
    (h1 : u.newStatus = .member ∨ u.newStatus = .restricted)
    (h2 : u.oldStatus = .left)
    (h3 : u.eventAgeSecs ≤ 120)
    (h4 : (load_blacklist env.now env.blacklistRows).contains u.userId = false)
    (h5 : env.casBanned = false)
    (h6 : 20 ≤ attempts.length) :
    (new_member_handler u env attempts).1 = attempts ∧
    Effect.banMember u.chatId u.userId (some 60) ∈ (new_member_handler u env attempts).2 := by
  have h3' : ¬ (u.eventAgeSecs > 120) := by omega
  have h4' : u.userId ∉ load_blacklist env.now env.blacklistRows := by simpa using h4
  have hout : new_member_handler u env attempts
      = (attempts,
          [Effect.sendMessage u.chatId (floodNoticeText u)]
            ++ (if env.noticeSendOk then [Effect.deleteMessage u.chatId env.noticeMessageId]
                else [])
            ++ [Effect.banMember u.chatId u.userId (some 60)]) := by
    simp [new_member_handler, h1, h2, h3', h4', h5, h6]
  rw [hout]
  refine ⟨rfl, ?_⟩
  by_cases hn : env.noticeSendOk <;> simp [hn]

/-- Witness for C4: the 21st join with 20 outstanding records. -/
theorem flood_ceiling_ban_witness :
    20 ≤ ((List.range 20).map (fun i => ((i : Int), (⟨0, 0, 0⟩ : AttemptRecord)))).length ∧
      (new_member_handler ⟨.left, .member, 0, 9, 1, none, "n"⟩
          ⟨0, [], false, ⟨"i", "w", ["a"], none, none, []⟩, true, 0, true, 77⟩
          ((List.range 20).map (fun i => ((i : Int), (⟨0, 0, 0⟩ : AttemptRecord))))).1
        = (List.range 20).map (fun i => ((i : Int), (⟨0, 0, 0⟩ : AttemptRecord))) :=
  ⟨by decide,
    (flood_ceiling_ban ⟨.left, .member, 0, 9, 1, none, "n"⟩
      ⟨0, [], false, ⟨"i", "w", ["a"], none, none, []⟩, true, 0, true, 77⟩
      ((List.range 20).map (fun i => ((i : Int), (⟨0, 0, 0⟩ : AttemptRecord))))
      (Or.inl rfl) rfl (by decide) (by decide) rfl (by decide)).1⟩

/-- C5 counterexample: a blacklisted user joining (user 1, permanent entry)
is banned with `until_date = now + 365 days` (31536000 s), not with a
permanent ban (no until-date): the handler's output contains a 365-day ban
and no permanent ban. -/
theorem blacklist_join_permanent_cex :
    (new_member_handler ⟨.left, .member, 0, 9, 1, none, "n"⟩
        ⟨0, [⟨some 1, .permanentStr⟩], false, ⟨"i", "w", ["a"], none, none, []⟩, true, 0,
          true, 77⟩ []).2
      = [Effect.banMember 9 1 (some 31536000)] ∧
    Effect.banMember 9 1 none
      ∉ (new_member_handler ⟨.left, .member, 0, 9, 1, none, "n"⟩
          ⟨0, [⟨some 1, .permanentStr⟩], false, ⟨"i", "w", ["a"], none, none, []⟩, true, 0,
            true, 77⟩ []).2 := by
  constructor
  · decide
  · decide

/-- C5 amended: a join by a blacklisted user (entry with no expiry, a
future expiry, or an unparseable expiry) results in exactly a 365-day ban
(`until_date = now + 365 days`, logged as permanent) and nothing else: no
restriction, no challenge message, no record created. -/
theorem blacklist_join_ban (u : JoinUpdate) (env : JoinEnv) (attempts : Attempts)
    (h1 : u.newStatus = .member ∨ u.newStatus = .restricted)
    (h2 : u.oldStatus = .left)
    (h3 : u.eventAgeSecs ≤ 120)
    (hb : (load_blacklist env.now env.blacklistRows).contains u.userId = true) :
    new_member_handler u env attempts
      = (attempts, [Effect.banMember u.chatId u.userId (some 31536000)]) := by
  have h3' : ¬ (u.eventAgeSecs > 120) := by omega
  have hb' : u.userId ∈ load_blacklist env.now env.blacklistRows := by simpa using hb
  simp [new_member_handler, h1, h2, h3', hb']

/-- Witness for C5 (amended) at the counterexample's input. -/
theorem blacklist_join_ban_witness :
    (load_blacklist 0 [⟨some 1, .permanentStr⟩]).contains 1 = true ∧
      new_member_handler ⟨.left, .member, 0, 9, 1, none, "n"⟩
          ⟨0, [⟨some 1, .permanentStr⟩], false, ⟨"i", "w", ["a"], none, none, []⟩, true, 0,
            true, 77⟩ []
        = ([], [Effect.banMember 9 1 (some 31536000)]) :=
  ⟨by decide,
    blacklist_join_ban ⟨.left, .member, 0, 9, 1, none, "n"⟩
      ⟨0, [⟨some 1, .permanentStr⟩], false, ⟨"i", "w", ["a"], none, none, []⟩, true, 0,
        true, 77⟩ [] (Or.inl rfl) rfl (by decide) (by decide)⟩

/-- C6: if the join reaches challenge dispatch and sending the captcha
photo fails, the user is banned for 24 h (86400 s), no record is created
(store unchanged) and no expiry action is scheduled (fail-closed). -/
theorem dispatch_fail_closed (u : JoinUpdate) (env : JoinEnv) (attempts : Attempts)
    (h1 : u.newStatus = .member ∨ u.newStatus = .restricted)
    (h2 : u.oldStatus = .left)
    (h3 : u.eventAgeSecs ≤ 120)
    (h4 : (load_blacklist env.now env.blacklistRows).contains u.userId = false)
    (h5 : env.casBanned = false)
    (h6 : attempts.length < 20)
    (h7 : env.sendPhotoOk = false) :
    (new_member_handler u env attempts).1 = attempts ∧
    Effect.banMember u.chatId u.userId (some 86400) ∈ (new_member_handler u env attempts).2 ∧
    (new_member_handler u env attempts).2.all (fun e => !(isScheduleTimeoutE e)) = true := by
  have h3' : ¬ (u.eventAgeSecs > 120) := by omega
  have h4' : u.userId ∉ load_blacklist env.now env.blacklistRows := by simpa using h4
  have h6' : ¬ (attempts.length ≥ 20) := by omega
  have hout : new_member_handler u env attempts
      = (attempts,
          [Effect.restrictMember u.chatId u.userId mutePerms,
           Effect.sendPhoto u.chatId env.config.welcome_message
             (buildKeyboard u.userId env.config.button_options)]
            ++ [Effect.banMember u.chatId u.userId (some 86400)]) := by
    simp [new_member_handler, h1, h2, h3', h4', h5, h6', h7]
  rw [hout]
  refine ⟨rfl, by simp, by simp [isScheduleTimeoutE]⟩

/-- Witness for C6: dispatch failure at a concrete join. -/
theorem dispatch_fail_closed_witness :
    (new_member_handler ⟨.left, .member, 0, 9, 1, none, "n"⟩
        ⟨0, [], false, ⟨"i", "w", ["a"], none, none, []⟩, true, 0, false, 77⟩ []).1 = [] :=
  (dispatch_fail_closed ⟨.left, .member, 0, 9, 1, none, "n"⟩
    ⟨0, [], false, ⟨"i", "w", ["a"], none, none, []⟩, true, 0, false, 77⟩ []
    (Or.inl rfl) rfl (by decide) (by decide) rfl (by decide) rfl).1

/-- C7 counterexample: the message "t.me/a t.me/a" contains two occurrences
of a single distinct link fragment and no disallowed substring, so the
claim's "otherwise" clause says its sender is added to `PostedUsers`; the
code instead counts occurrences, deletes the message, bans the sender 24 h,
and never adds them. -/
theorem first_message_duplicate_links_cex :
    findTgLinks ("t.me/a t.me/a".toList.map Char.toLower)
        = ["t.me/a".toList, "t.me/a".toList] ∧
    (findTgLinks ("t.me/a t.me/a".toList.map Char.toLower)).dedup.length = 1 ∧
    check_first_message 7 9 55 "t.me/a t.me/a" [] [] true
        = ([], [Effect.deleteMessage 9 55, Effect.banMember 9 7 (some 86400)]) := by
  have hl : findTgLinks ("t.me/a t.me/a".toList.map Char.toLower)
      = ["t.me/a".toList, "t.me/a".toList] := by
    simp [findTgLinks, tMeChars, isSpaceCh]
  refine ⟨hl, ?_, ?_⟩
  · rw [hl]
    decide
  · simp [check_first_message, findTgLinks, tMeChars, isSpaceCh]

/-- C7 amended: per first text message of a user not yet in `PostedUsers`,
the message is deleted and the user banned 24 h (given the delete call
succeeds) if it contains at least 2 link-fragment occurrences (not
necessarily distinct) or any disallowed substring case-insensitively, and
the user is not added to `PostedUsers`; otherwise the user is appended to
`PostedUsers` with no other action; a user already in `PostedUsers` is
never re-checked. -/
theorem first_message_filter (uid chat msgId : Int) (text : String)
    (patterns : List String) (posted : List Int) :
    (posted.contains uid = true →
      check_first_message uid chat msgId text patterns posted true = (posted, [])) ∧
    (posted.contains uid = false →
      ((2 ≤ (findTgLinks (text.toList.map Char.toLower)).length ∨
          patterns.any
            (fun p => containsSub (p.toList.map Char.toLower)
              (text.toList.map Char.toLower)) = true) →
        check_first_message uid chat msgId text patterns posted true
          = (posted, [Effect.deleteMessage chat msgId,
                      Effect.banMember chat uid (some 86400)])) ∧
      ((findTgLinks (text.toList.map Char.toLower)).length < 2 →
        patterns.all
            (fun p => !(containsSub (p.toList.map Char.toLower)
              (text.toList.map Char.toLower))) = true →
        check_first_message uid chat msgId text patterns posted true
          = (posted ++ [uid], []))) := by
  constructor
  · intro h
    simp only [check_first_message]
    rw [if_pos h]
  · intro h
    have h' : ¬ (posted.contains uid = true) := by rw [h]; decide
    constructor
    · intro htrig
      rcases htrig with hlinks | hpat
      · simp only [check_first_message]
        rw [if_neg h', if_pos hlinks]
        simp
      · by_cases hlinks : 2 ≤ (findTgLinks (text.toList.map Char.toLower)).length
        · simp only [check_first_message]
          rw [if_neg h', if_pos hlinks]
          simp
        · rcases List.any_eq_true.mp hpat with ⟨p, hp, hmatch⟩
          rcases hfound : patterns.find?
              (fun p => containsSub (p.toList.map Char.toLower)
                (text.toList.map Char.toLower)) with _ | q
          · exfalso
            have := List.find?_eq_none.mp hfound p hp
            rw [hmatch] at this
            exact this rfl
          · simp only [check_first_message]
            rw [if_neg h', if_neg hlinks, hfound]
            simp
    · intro hlinks hpat
      have hlt : ¬ (2 ≤ (findTgLinks (text.toList.map Char.toLower)).length) := by omega
      have hfind : patterns.find?
          (fun p => containsSub (p.toList.map Char.toLower)
            (text.toList.map Char.toLower)) = none := by
        rw [List.find?_eq_none]
        intro p hp
        have hall := List.all_eq_true.mp hpat p hp
        simp only [Bool.not_eq_true'] at hall
        rw [hall]
        decide
      simp only [check_first_message]
      rw [if_neg h', if_neg hlt, hfind]

/-- Witness for C7 (amended): two distinct fragments trigger the ban. -/
theorem first_message_filter_witness :
    check_first_message 7 9 55 "t.me/a t.me/b" [] [] true
      = ([], [Effect.deleteMessage 9 55, Effect.banMember 9 7 (some 86400)]) :=
  ((first_message_filter 7 9 55 "t.me/a t.me/b" [] []).2 rfl).1
    (Or.inl (by simp [findTgLinks, tMeChars, isSpaceCh]))

/-- Two chunks exactly, when `c < l.length ≤ 2*c`. -/
theorem chunksOf_two (c : Nat) (l : List α) (hlt : c < l.length) (hle : l.length ≤ 2 * c) :
    chunksOf c l = [l.take c, l.drop c] := by
  cases l with
  | nil => simp at hlt
  | cons x xs =>
    obtain ⟨k, rfl⟩ : ∃ k, c = k + 1 := ⟨c - 1, by omega⟩
    rw [chunksOf_cons]
    simp only [Nat.add_sub_cancel, List.take_succ_cons, List.drop_succ_cons]
    congr 1
    apply chunksOf_singleton
    · intro hnil
      have := congrArg List.length hnil
      simp only [List.length_drop, List.length_nil] at this
      simp only [List.length_cons] at hlt hle
      omega
    · simp only [List.length_drop]
      simp only [List.length_cons] at hle
      omega

/-- C8 counterexample: with 7 labels the layout is rows of sizes 3, 3, 1 —
the last row has 1 button, so "rows of 3 buttons when the count exceeds 6"
fails as stated. -/
theorem keyboard_seven_options_cex :
    (buildKeyboard 1 ["a", "b", "c", "d", "e", "f", "g"]).map List.length = [3, 3, 1] ∧
    ¬ (∀ r ∈ buildKeyboard 1 ["a", "b", "c", "d", "e", "f", "g"], r.length = 3) := by
  have hb : buildKeyboard 1 ["a", "b", "c", "d", "e", "f", "g"]
      = [[mkButton 1 "a", mkButton 1 "b", mkButton 1 "c"],
         [mkButton 1 "d", mkButton 1 "e", mkButton 1 "f"],
         [mkButton 1 "g"]] := by
    simp [buildKeyboard, chunksOf]
  rw [hb]
  constructor
  · simp
  · intro hall
    have := hall [mkButton 1 "g"] (by simp)
    simp at this

/-- C8 amended: for a non-empty label list the flattened labels are the
original list in order; at most 3 options give one single row; 4 to 6
options give exactly two rows each of 2 or 3 buttons; more than 6 options
give rows of 3 buttons except that the final row may have 1 to 3. -/
theorem keyboard_layout (userId : Int) (l : List String) (hne : l ≠ []) :
    ((buildKeyboard userId l).map (fun row => row.map Button.label)).flatten = l ∧
    (l.length ≤ 3 → buildKeyboard userId l = [l.map (mkButton userId)]) ∧
    (4 ≤ l.length → l.length ≤ 6 →
      (buildKeyboard userId l).length = 2 ∧
      ∀ r ∈ buildKeyboard userId l, r.length = 2 ∨ r.length = 3) ∧
    (6 < l.length →
      (∀ r ∈ buildKeyboard userId l, 1 ≤ r.length ∧ r.length ≤ 3) ∧
      (∀ i, i + 1 < (buildKeyboard userId l).length →
        ((buildKeyboard userId l).getD i []).length = 3)) := by
  refine ⟨?_, ?_, ?_, ?_⟩
  · simp only [buildKeyboard]
    split_ifs <;>
      simp [List.map_map, Function.comp_def, mkButton, chunksOf_flatten]
  · intro h3
    simp only [buildKeyboard]
    rw [if_pos h3]
  · intro h4 h6
    have h3' : ¬ (l.length ≤ 3) := by omega
    simp only [buildKeyboard]
    rw [if_neg h3', if_pos h6]
    by_cases h45 : l.length > 4
    · rw [if_pos h45, chunksOf_two 3 l (by omega) (by omega)]
      constructor
      · simp
      · intro r hr
        simp only [List.map_cons, List.map_nil, List.mem_cons, List.not_mem_nil,
          or_false] at hr
        rcases hr with rfl | rfl
        · right
          simp only [List.length_map, List.length_take]
          omega
        · simp only [List.length_map, List.length_drop]
          omega
    · rw [if_neg h45, chunksOf_two 2 l (by omega) (by omega)]
      constructor
      · simp
      · intro r hr
        simp only [List.map_cons, List.map_nil, List.mem_cons, List.not_mem_nil,
          or_false] at hr
        rcases hr with rfl | rfl
        · left
          simp only [List.length_map, List.length_take]
          omega
        · left
          simp only [List.length_map, List.length_drop]
          omega
  · intro h7
    have h3' : ¬ (l.length ≤ 3) := by omega
    have h6' : ¬ (l.length ≤ 6) := by omega
    simp only [buildKeyboard]
    rw [if_neg h3', if_neg h6']
    constructor
    · intro r hr
      rcases List.mem_map.mp hr with ⟨r', hr', rfl⟩
      have := chunksOf_mem_length 3 (by omega) l r' hr'
      simpa using this
    · intro i hi
      rw [List.length_map] at hi
      have h3get := chunksOf3_getD l i hi
      rw [List.getD_eq_getElem?_getD] at h3get ⊢
      rw [List.getElem?_map]
      rcases hK : (chunksOf 3 l)[i]? with _ | r
      · exfalso
        rw [List.getElem?_eq_none_iff] at hK
        omega
      · rw [hK] at h3get
        simp only [Option.map_some', Option.getD_some, List.length_map]
        simpa using h3get

/-- Witness for C8 (amended) at a 5-label list: two rows of 3 and 2. -/
theorem keyboard_layout_witness :
    ["a", "b", "c", "d", "e"] ≠ ([] : List String) ∧
      (buildKeyboard 1 ["a", "b", "c", "d", "e"]).length = 2 :=
  ⟨by decide,
    ((keyboard_layout 1 ["a", "b", "c", "d", "e"] (by decide)).2.2.1
      (by decide) (by decide)).1⟩

end Damocles
